import Mathlib

/-!
Verification of the watermeter-ble device communication core against its
natural-language specification.

The embedding follows the TypeScript source (`src/App.tsx`, `src/ble.tsx`):
byte buffers become `List Nat` (each entry one byte), Node `Buffer` reads
become partial lookups returning `Option`, thrown-and-caught exceptions
become `Option`/`Except` results, and the React component state
(`connectedDevice`, `deviceData`) becomes an explicit `AppState` record
threaded through the handlers.  Transport calls (`react-native-ble-plx`)
are modelled by oracle records supplying each call's outcome, so the
control flow of the source functions can be replayed deterministically.
-/

namespace WatermeterBle

/-! Byte-buffer reads, modelling Node `Buffer.readUInt16BE` /
`Buffer.readUInt32BE` / `Buffer.readUInt16LE`: the read succeeds exactly
when `offset + width ≤ length`, otherwise the source throws a `RangeError`
(always caught by the callers), modelled as `none`. -/

def readUInt16BE (buf : List Nat) (offset : Nat) : Option Nat :=
  match buf[offset]?, buf[offset + 1]? with
  | some b0, some b1 => some (b0 * 256 + b1)
  | _, _ => none

def readUInt32BE (buf : List Nat) (offset : Nat) : Option Nat :=
  match buf[offset]?, buf[offset + 1]?, buf[offset + 2]?, buf[offset + 3]? with
  | some b0, some b1, some b2, some b3 =>
      some (b0 * 16777216 + b1 * 65536 + b2 * 256 + b3)
  | _, _, _, _ => none

def readUInt16LE (buf : List Nat) (offset : Nat) : Option Nat :=
  match buf[offset]?, buf[offset + 1]? with
  | some b0, some b1 => some (b1 * 256 + b0)
  | _, _ => none

/-! Binary codec (spec §4.1).  `parseBatteryVoltage` and
`parseMeterReading` are the source functions at `src/App.tsx:845` and
`src/App.tsx:858`: read at fixed offset 3, catch any range error and
return null (`none`).  The voltage division by 1000 is carried out in `ℚ`
to keep millivolt→volt scaling exact. -/

def parseBatteryVoltage (decodedValue : List Nat) : Option ℚ :=
  match readUInt16BE decodedValue 3 with
  | some batteryVoltageRaw => some ((batteryVoltageRaw : ℚ) / 1000)
  | none => none

def parseMeterReading (decodedValue : List Nat) : Option Nat :=
  match readUInt32BE decodedValue 3 with
  | some meterReadingRaw => some meterReadingRaw
  | none => none

inductive ResponseKind where
  | Voltage
  | MeterReading
deriving DecidableEq

inductive CodecError where
  | InvalidObisCode
  | TruncatedFrame
  | UnknownResponseKind
deriving DecidableEq

inductive PhysicalValue where
  | volts (v : ℚ)
  | count (n : Nat)
deriving DecidableEq

/-- Decoder front-end named by the spec (§4.1): dispatches on the response
kind to the source parse functions; the source's caught null result (a
too-short frame) is the spec's `TruncatedFrame` failure. -/
def decodeResponse (frame : List Nat) (expectedKind : ResponseKind) :
    Except CodecError PhysicalValue :=
  match expectedKind with
  | .Voltage =>
      match parseBatteryVoltage frame with
      | some v => .ok (.volts v)
      | none => .error .TruncatedFrame
  | .MeterReading =>
      match parseMeterReading frame with
      | some n => .ok (.count n)
      | none => .error .TruncatedFrame

/-- Fixed DLMS Get-Request class/type header: the source builds the frame
as hex `"C001" + obisCode` (`src/App.tsx:213`). -/
def requestHeader : List Nat := [0xC0, 0x01]

/-- Modelled from the spec: the source inlines the frame construction for
one fixed OBIS code (`src/App.tsx:212`–`218`) and has no length check;
the `InvalidObisCode` guard on non-6-byte inputs is taken from spec §4.1.
The success branch is the source's `Buffer.from("C001" + obis, "hex")`. -/
def encodeGetRequest (obisCode : List Nat) : Except CodecError (List Nat) :=
  if obisCode.length = 6 then .ok (requestHeader ++ obisCode)
  else .error .InvalidObisCode

/-- Claim C1: for every response frame of at least 5 bytes, decoding as
Voltage reads the big-endian 16-bit unsigned integer at byte offset 3 and
returns it divided by 1000 (volts). -/
theorem parseBatteryVoltage_reads_u16be_offset3 (frame : List Nat)
    (h : 5 ≤ frame.length) :
    parseBatteryVoltage frame =
      some (((frame.getD 3 0 * 256 + frame.getD 4 0 : ℕ) : ℚ) / 1000) := by
  match frame, h with
  | a :: b :: c :: d :: e :: rest, _ =>
    simp [parseBatteryVoltage, readUInt16BE, List.getD]

/-- Witness for C1: the spec's example frame `[_,_,_, 0x0B, 0xB8]`
(16-bit big-endian 3000) decodes to exactly 3 volts. -/
theorem parseBatteryVoltage_reads_u16be_offset3_witness :
    parseBatteryVoltage [0, 0, 0, 0x0B, 0xB8] = some 3 := by
  have h := parseBatteryVoltage_reads_u16be_offset3 [0, 0, 0, 0x0B, 0xB8]
    (by decide)
  rw [h]
  norm_num

/-- Claim C3: for every response frame of at least 7 bytes, decoding as
MeterReading reads the big-endian 32-bit unsigned integer at byte offset 3
and returns it unscaled. -/
theorem parseMeterReading_reads_u32be_offset3 (frame : List Nat)
    (h : 7 ≤ frame.length) :
    parseMeterReading frame =
      some (frame.getD 3 0 * 16777216 + frame.getD 4 0 * 65536 +
            frame.getD 5 0 * 256 + frame.getD 6 0) := by
  match frame, h with
  | a :: b :: c :: d :: e :: f :: g :: rest, _ =>
    simp [parseMeterReading, readUInt32BE, List.getD]

/-- Witness for C3: the spec's example frame `[_,_,_, 0x00,0x00,0x01,0x00]`
(32-bit big-endian 256) decodes to 256. -/
theorem parseMeterReading_reads_u32be_offset3_witness :
    parseMeterReading [0, 0, 0, 0, 0, 1, 0] = some 256 := by
  have h := parseMeterReading_reads_u32be_offset3 [0, 0, 0, 0, 0, 1, 0]
    (by decide)
  rw [h]
  decide

/-- Claim C2: a 6-byte OBIS code encodes to exactly 8 bytes, the fixed
2-byte request header followed by the 6 input bytes unchanged (the last 6
bytes of the frame equal the input); any other input length fails with
`InvalidObisCode`. -/
theorem encodeGetRequest_spec (obisCode : List Nat) :
    (obisCode.length = 6 →
      encodeGetRequest obisCode = .ok (requestHeader ++ obisCode) ∧
      (requestHeader ++ obisCode).length = 8 ∧
      (requestHeader ++ obisCode).drop 2 = obisCode) ∧
    (obisCode.length ≠ 6 →
      encodeGetRequest obisCode = .error .InvalidObisCode) := by
  constructor
  · intro h6
    refine ⟨?_, ?_, ?_⟩
    · simp [encodeGetRequest, h6]
    · simp [requestHeader, h6]
    · simp [requestHeader]
  · intro h6
    simp [encodeGetRequest, h6]

/-- Witness for C2: the source's fixed battery-voltage OBIS code
`00 0B 60 06 03 FF` encodes to the 8-byte frame `C0 01 00 0B 60 06 03 FF`,
and a 3-byte input is rejected. -/
theorem encodeGetRequest_spec_witness :
    encodeGetRequest [0x00, 0x0B, 0x60, 0x06, 0x03, 0xFF] =
      .ok [0xC0, 0x01, 0x00, 0x0B, 0x60, 0x06, 0x03, 0xFF] ∧
    encodeGetRequest [1, 2, 3] = .error .InvalidObisCode := by
  constructor
  · exact ((encodeGetRequest_spec [0x00, 0x0B, 0x60, 0x06, 0x03, 0xFF]).1
      (by decide)).1
  · exact (encodeGetRequest_spec [1, 2, 3]).2 (by decide)

/-- Helper: a 16-bit read is determined by the two addressed bytes. -/
theorem readUInt16BE_congr (xs ys : List Nat) (offset : Nat)
    (h0 : xs[offset]? = ys[offset]?) (h1 : xs[offset + 1]? = ys[offset + 1]?) :
    readUInt16BE xs offset = readUInt16BE ys offset := by
  simp [readUInt16BE, h0, h1]

/-- Helper: a 32-bit read is determined by the four addressed bytes. -/
theorem readUInt32BE_congr (xs ys : List Nat) (offset : Nat)
    (h0 : xs[offset]? = ys[offset]?) (h1 : xs[offset + 1]? = ys[offset + 1]?)
    (h2 : xs[offset + 2]? = ys[offset + 2]?)
    (h3 : xs[offset + 3]? = ys[offset + 3]?) :
    readUInt32BE xs offset = readUInt32BE ys offset := by
  simp [readUInt32BE, h0, h1, h2, h3]

/-- Claim C7: a frame shorter than offset 3 plus the selected width (2
bytes for Voltage, 4 for MeterReading) always decodes to `TruncatedFrame`;
and the decoder never reads outside the frame's bounds, expressed as: the
result depends only on the first offset+width bytes of the frame. -/
theorem decodeResponse_truncated (frame : List Nat) :
    (frame.length < 5 → decodeResponse frame .Voltage = .error .TruncatedFrame) ∧
    (frame.length < 7 →
      decodeResponse frame .MeterReading = .error .TruncatedFrame) ∧
    (∀ g : List Nat, frame.take 5 = g.take 5 →
      decodeResponse frame .Voltage = decodeResponse g .Voltage) ∧
    (∀ g : List Nat, frame.take 7 = g.take 7 →
      decodeResponse frame .MeterReading = decodeResponse g .MeterReading) := by
  refine ⟨?_, ?_, ?_, ?_⟩
  · intro hlt
    have h4 : frame[4]? = none := by
      rw [List.getElem?_eq_none]
      omega
    simp only [decodeResponse, parseBatteryVoltage, readUInt16BE]
    rw [show (3 + 1 : Nat) = 4 from rfl, h4]
    cases frame[3]? <;> simp
  · intro hlt
    have h6 : frame[6]? = none := by
      rw [List.getElem?_eq_none]
      omega
    simp only [decodeResponse, parseMeterReading, readUInt32BE]
    rw [show (3 + 3 : Nat) = 6 from rfl, h6]
    cases frame[3]? <;> cases frame[4]? <;> cases frame[5]? <;> simp
  · intro g htake
    have hbyte : ∀ i, i < 5 → frame[i]? = g[i]? := by
      intro i hi
      calc frame[i]? = (frame.take 5)[i]? := by simp [List.getElem?_take, hi]
        _ = (g.take 5)[i]? := by rw [htake]
        _ = g[i]? := by simp [List.getElem?_take, hi]
    have h16 : readUInt16BE frame 3 = readUInt16BE g 3 :=
      readUInt16BE_congr frame g 3 (hbyte 3 (by omega)) (hbyte 4 (by omega))
    simp [decodeResponse, parseBatteryVoltage, h16]
  · intro g htake
    have hbyte : ∀ i, i < 7 → frame[i]? = g[i]? := by
      intro i hi
      calc frame[i]? = (frame.take 7)[i]? := by simp [List.getElem?_take, hi]
        _ = (g.take 7)[i]? := by rw [htake]
        _ = g[i]? := by simp [List.getElem?_take, hi]
    have h32 : readUInt32BE frame 3 = readUInt32BE g 3 :=
      readUInt32BE_congr frame g 3 (hbyte 3 (by omega)) (hbyte 4 (by omega))
        (hbyte 5 (by omega)) (hbyte 6 (by omega))
    simp [decodeResponse, parseMeterReading, h32]

/-- Witness for C7: a 4-byte frame is too short for Voltage and a 6-byte
frame is too short for MeterReading; both fail with `TruncatedFrame`. -/
theorem decodeResponse_truncated_witness :
    decodeResponse [1, 2, 3, 4] .Voltage = .error .TruncatedFrame ∧
    decodeResponse [1, 2, 3, 4, 5, 6] .MeterReading = .error .TruncatedFrame := by
  constructor
  · exact (decodeResponse_truncated [1, 2, 3, 4]).1 (by decide)
  · exact (decodeResponse_truncated [1, 2, 3, 4, 5, 6]).2.1 (by decide)

/-! Scan aggregator (spec §4.4, `src/App.tsx:82`–`106`).  A discovery
event carries a transport device with an id and an optional advertised
name; the callback appends the device to the result list exactly when it
has a truthy (non-null, non-empty) name and its id is not yet in the
`discoveredDeviceIds` set.  The set is modelled as the list of inserted
ids; the fold below replays the callback over a finite event sequence. -/

structure Device where
  id : String
  name : Option String
deriving DecidableEq

/-- JavaScript truthiness of `device.name`: null/undefined and the empty
string are falsy. -/
def hasName (d : Device) : Bool :=
  match d.name with
  | none => false
  | some s => s != ""

structure ScanState where
  discoveredDeviceIds : List String
  devices : List Device

/-- One invocation of the `startDeviceScan` discovery callback
(`src/App.tsx:97`–`102`). -/
def scanStep (st : ScanState) (d : Device) : ScanState :=
  if hasName d = true ∧ d.id ∉ st.discoveredDeviceIds then
    { discoveredDeviceIds := d.id :: st.discoveredDeviceIds
      devices := st.devices ++ [d] }
  else st

/-- The device list produced by replaying a whole sequence of discovery
events from the fresh state `startScan` installs. -/
def startScanDevices (events : List Device) : List Device :=
  (events.foldl scanStep { discoveredDeviceIds := [], devices := [] }).devices

/-- Recursive restatement of the fold used to reason by induction. -/
def aggregate : List Device → List String → List Device
  | [], _ => []
  | d :: rest, seen =>
    if hasName d = true ∧ d.id ∉ seen then d :: aggregate rest (d.id :: seen)
    else aggregate rest seen

theorem foldl_scanStep_eq (events : List Device) :
    ∀ (seen : List String) (devs : List Device),
      (events.foldl scanStep
        { discoveredDeviceIds := seen, devices := devs }).devices =
      devs ++ aggregate events seen := by
  induction events with
  | nil => intro seen devs; simp [aggregate]
  | cons d rest ih =>
    intro seen devs
    by_cases hc : hasName d = true ∧ d.id ∉ seen
    · simp only [List.foldl_cons, scanStep, aggregate, if_pos hc]
      rw [ih]
      simp
    · simp only [List.foldl_cons, scanStep, aggregate, if_neg hc]
      exact ih seen devs

theorem aggregate_id_not_seen (events : List Device) :
    ∀ (seen : List String) (d : Device),
      d ∈ aggregate events seen → d.id ∉ seen := by
  induction events with
  | nil => intro seen d hd; simp [aggregate] at hd
  | cons e rest ih =>
    intro seen d hd
    unfold aggregate at hd
    by_cases hc : hasName e = true ∧ e.id ∉ seen
    · rw [if_pos hc] at hd
      rcases List.mem_cons.mp hd with heq | hmem
      · subst heq; exact hc.2
      · have := ih (e.id :: seen) d hmem
        intro hin
        exact this (List.mem_cons_of_mem _ hin)
    · rw [if_neg hc] at hd
      exact ih seen d hd

theorem aggregate_nodup_ids (events : List Device) :
    ∀ (seen : List String), ((aggregate events seen).map Device.id).Nodup := by
  induction events with
  | nil => intro seen; simp [aggregate]
  | cons e rest ih =>
    intro seen
    unfold aggregate
    by_cases hc : hasName e = true ∧ e.id ∉ seen
    · rw [if_pos hc]
      simp only [List.map_cons, List.nodup_cons]
      refine ⟨?_, ih (e.id :: seen)⟩
      intro hmem
      rcases List.mem_map.mp hmem with ⟨d, hd, hid⟩
      have := aggregate_id_not_seen rest (e.id :: seen) d hd
      exact this (hid ▸ List.mem_cons_self e.id seen)
    · rw [if_neg hc]
      exact ih seen

theorem aggregate_mem (events : List Device) :
    ∀ (seen : List String) (d : Device),
      d ∈ aggregate events seen → hasName d = true ∧ d ∈ events := by
  induction events with
  | nil => intro seen d hd; simp [aggregate] at hd
  | cons e rest ih =>
    intro seen d hd
    unfold aggregate at hd
    by_cases hc : hasName e = true ∧ e.id ∉ seen
    · rw [if_pos hc] at hd
      rcases List.mem_cons.mp hd with heq | hmem
      · subst heq; exact ⟨hc.1, List.mem_cons_self _ _⟩
      · rcases ih _ d hmem with ⟨h1, h2⟩
        exact ⟨h1, List.mem_cons_of_mem _ h2⟩
    · rw [if_neg hc] at hd
      rcases ih seen d hd with ⟨h1, h2⟩
      exact ⟨h1, List.mem_cons_of_mem _ h2⟩

theorem aggregate_covers (events : List Device) :
    ∀ (seen : List String) (d : Device),
      d ∈ events → hasName d = true → d.id ∉ seen →
      d.id ∈ (aggregate events seen).map Device.id := by
  induction events with
  | nil => intro seen d hd; simp at hd
  | cons e rest ih =>
    intro seen d hd hname hseen
    unfold aggregate
    by_cases hc : hasName e = true ∧ e.id ∉ seen
    · rw [if_pos hc]
      simp only [List.map_cons]
      by_cases hide : d.id = e.id
      · exact hide ▸ List.mem_cons_self _ _
      · rcases List.mem_cons.mp hd with heq | hmem
        · exact absurd (heq ▸ rfl) hide
        · refine List.mem_cons_of_mem _ (ih (e.id :: seen) d hmem hname ?_)
          intro hin
          rcases List.mem_cons.mp hin with h | h
          · exact hide h
          · exact hseen h
    · rw [if_neg hc]
      rcases List.mem_cons.mp hd with heq | hmem
      · exfalso
        apply hc
        subst heq
        exact ⟨hname, hseen⟩
      · exact ih seen d hmem hname hseen

theorem aggregate_first_occurrence (events : List Device) :
    ∀ (seen : List String) (d : Device), d ∈ aggregate events seen →
      (events.filter (fun e => hasName e && e.id == d.id)).head? = some d := by
  induction events with
  | nil => intro seen d hd; simp [aggregate] at hd
  | cons e rest ih =>
    intro seen d hd
    unfold aggregate at hd
    by_cases hc : hasName e = true ∧ e.id ∉ seen
    · rw [if_pos hc] at hd
      rcases List.mem_cons.mp hd with heq | hmem
      · subst heq
        simp [List.filter_cons, hc.1]
      · have hdid : d.id ∉ e.id :: seen :=
          aggregate_id_not_seen rest (e.id :: seen) d hmem
        have hne : e.id ≠ d.id := by
          intro h
          exact hdid (h ▸ List.mem_cons_self e.id seen)
        rw [List.filter_cons]
        have : (hasName e && e.id == d.id) = false := by
          simp [hne]
        rw [this]
        simp only [Bool.false_eq_true, if_false]
        exact ih (e.id :: seen) d hmem
    · rw [if_neg hc] at hd
      have hdseen : d.id ∉ seen := aggregate_id_not_seen rest seen d hd
      rw [List.filter_cons]
      have hcond : (hasName e && e.id == d.id) = false := by
        by_cases hn : hasName e = true
        · have hid : e.id ∈ seen := by
            by_contra hns
            exact hc ⟨hn, hns⟩
          have hne : e.id ≠ d.id := by
            intro h
            exact hdseen (h ▸ hid)
          simp [hne]
        · simp [Bool.not_eq_true] at hn
          simp [hn]
      rw [hcond]
      simp only [Bool.false_eq_true, if_false]
      exact ih seen d hd

/-- Keep the first event carrying each id, preserving the order in which
ids first appear. -/
def dedupeFirstById : List Device → List Device
  | [] => []
  | d :: rest => d :: dedupeFirstById (rest.filter (fun e => !(e.id == d.id)))
termination_by l => l.length
decreasing_by
  simp only [List.length_cons]
  exact Nat.lt_succ_of_le (List.length_filter_le _ _)

theorem dedupeFirstById_cons (d : Device) (l : List Device) :
    dedupeFirstById (d :: l) =
      d :: dedupeFirstById (l.filter (fun e => !(e.id == d.id))) := by
  rw [dedupeFirstById]

/-- The claim's description of the scan result: the named events, one per
id, each the first event bearing its id, in first-seen order. -/
def firstSeenNamed (events : List Device) : List Device :=
  dedupeFirstById (events.filter (fun e => hasName e))

theorem aggregate_eq_dedupeFirstById (events : List Device) :
    ∀ seen : List String,
      aggregate events seen =
        dedupeFirstById
          (events.filter (fun e => hasName e && !(seen.contains e.id))) := by
  induction events with
  | nil => intro seen; simp [aggregate, dedupeFirstById]
  | cons d rest ih =>
    intro seen
    by_cases hc : hasName d = true ∧ d.id ∉ seen
    · have hfd : (hasName d && !(seen.contains d.id)) = true := by
        simp [List.contains, hc.1, hc.2]
      have hstep : List.filter (fun e => hasName e && !(seen.contains e.id))
          (d :: rest) =
          d :: List.filter (fun e => hasName e && !(seen.contains e.id)) rest := by
        simp only [List.filter_cons]
        rw [if_pos hfd]
      unfold aggregate
      rw [if_pos hc, hstep, dedupeFirstById_cons, List.filter_filter,
        ih (d.id :: seen)]
      have hpt : rest.filter
          (fun e => !(e.id == d.id) && (hasName e && !(seen.contains e.id))) =
          rest.filter (fun e => hasName e && !((d.id :: seen).contains e.id)) := by
        apply List.filter_congr
        intro e _
        rw [List.contains_cons]
        cases hn : hasName e <;> cases hb : e.id == d.id <;>
          cases hs : seen.contains e.id <;> simp [hn, hb, hs]
      rw [hpt]
    · have hfd : ¬((hasName d && !(seen.contains d.id)) = true) := by
        intro hb
        apply hc
        simp [List.contains] at hb
        exact hb
      have hstep : List.filter (fun e => hasName e && !(seen.contains e.id))
          (d :: rest) =
          List.filter (fun e => hasName e && !(seen.contains e.id)) rest := by
        simp only [List.filter_cons]
        rw [if_neg hfd]
      unfold aggregate
      rw [if_neg hc, hstep]
      exact ih seen

/-- Claim C4: replaying any sequence of discovery events, the result list
is exactly the named events deduplicated by id keeping each id's first
event, in first-seen order (`firstSeenNamed`); consequently it has no
duplicate ids, every entry carries a non-empty name and comes from the
event sequence, every event with a non-empty name is represented by its
id, and each entry is the first named event bearing its id. -/
theorem startScan_dedupes (events : List Device) :
    startScanDevices events = firstSeenNamed events ∧
    ((startScanDevices events).map Device.id).Nodup ∧
    (∀ d : Device, d ∈ startScanDevices events →
      hasName d = true ∧ d ∈ events) ∧
    (∀ d : Device, d ∈ events → hasName d = true →
      d.id ∈ (startScanDevices events).map Device.id) ∧
    (∀ d : Device, d ∈ startScanDevices events →
      (events.filter (fun e => hasName e && e.id == d.id)).head? = some d) := by
  have hrw : startScanDevices events = aggregate events [] := by
    unfold startScanDevices
    rw [foldl_scanStep_eq events [] []]
    simp
  refine ⟨?_, ?_, ?_, ?_, ?_⟩
  · rw [hrw, aggregate_eq_dedupeFirstById events []]
    unfold firstSeenNamed
    congr 1
    apply List.filter_congr
    intro e _
    simp [List.contains]
  · rw [hrw]; exact aggregate_nodup_ids events []
  · rw [hrw]; exact fun d hd => aggregate_mem events [] d hd
  · rw [hrw]
    exact fun d hd hn => aggregate_covers events [] d hd hn (by simp)
  · rw [hrw]; exact fun d hd => aggregate_first_occurrence events [] d hd

/-- Witness for C4: a duplicate event for id `"W1"` and an unnamed event
for id `"W2"` — `"W1"` appears exactly once, and the result equals the
first-seen-order specification. -/
theorem startScan_dedupes_witness :
    (⟨"W1", some "Meter"⟩ : Device) ∈
      [(⟨"W1", some "Meter"⟩ : Device), ⟨"W1", some "Meter"⟩, ⟨"W2", none⟩] ∧
    "W1" ∈ (startScanDevices
      [(⟨"W1", some "Meter"⟩ : Device), ⟨"W1", some "Meter"⟩,
        ⟨"W2", none⟩]).map Device.id ∧
    startScanDevices
      [(⟨"W1", some "Meter"⟩ : Device), ⟨"W1", some "Meter"⟩, ⟨"W2", none⟩] =
      firstSeenNamed
        [(⟨"W1", some "Meter"⟩ : Device), ⟨"W1", some "Meter"⟩,
          ⟨"W2", none⟩] := by
  refine ⟨by decide, ?_, ?_⟩
  · exact (startScan_dedupes
      [(⟨"W1", some "Meter"⟩ : Device), ⟨"W1", some "Meter"⟩,
        ⟨"W2", none⟩]).2.2.2.1 ⟨"W1", some "Meter"⟩ (by decide) (by decide)
  · exact (startScan_dedupes
      [(⟨"W1", some "Meter"⟩ : Device), ⟨"W1", some "Meter"⟩,
        ⟨"W2", none⟩]).1

/-! Connection state machine (`src/ble.tsx`).  The component's session
state is the pair of React state cells `connectedDevice` / `deviceData`;
a populated `connectedDevice` is the Ready session.  Transport outcomes
(each `await` on the BLE stack) are supplied by oracle records; a thrown
error is `Except.error`, landing in the source's `catch` block. -/

inductive BleError where
  | ConnectError
  | MtuError
  | DiscoveryError
  | CharacteristicReadError
  | CancelError
  | RangeError
deriving DecidableEq

/-- Device data accumulated by `src/ble.tsx` (battery level and raw valve
status), the `deviceData` cell's payload. -/
structure DeviceData where
  batteryLevel : Nat
  valveStatus : String
deriving DecidableEq

structure AppState where
  connectedDevice : Option Device
  deviceData : Option DeviceData
deriving DecidableEq

/-- Delivery of the transport's `onDeviceDisconnected` callback
(`src/ble.tsx:32`–`44`): the subscription exists only while a device is
connected and is keyed to that device's id; firing it nulls both state
cells. -/
def onDeviceDisconnectedEvent (st : AppState) (devId : String) : AppState :=
  match st.connectedDevice with
  | some d =>
      if d.id = devId then { connectedDevice := none, deviceData := none }
      else st
  | none => st

/-- Claim C5: an unsolicited disconnect event for the currently connected
device while the session is Ready moves the machine to Idle, clearing the
connected-device handle and the accumulated device data. -/
theorem disconnectEvent_clears_session (st : AppState) (d : Device)
    (h : st.connectedDevice = some d) :
    (onDeviceDisconnectedEvent st d.id).connectedDevice = none ∧
    (onDeviceDisconnectedEvent st d.id).deviceData = none := by
  simp [onDeviceDisconnectedEvent, h]

/-- Witness for C5: a Ready session holding device data is fully cleared
by the disconnect event for its device. -/
theorem disconnectEvent_clears_session_witness :
    (onDeviceDisconnectedEvent
      { connectedDevice := some ⟨"W1", some "Meter"⟩
        deviceData := some ⟨87, "open"⟩ } "W1").connectedDevice = none ∧
    (onDeviceDisconnectedEvent
      { connectedDevice := some ⟨"W1", some "Meter"⟩
        deviceData := some ⟨87, "open"⟩ } "W1").deviceData = none :=
  disconnectEvent_clears_session
    { connectedDevice := some ⟨"W1", some "Meter"⟩
      deviceData := some ⟨87, "open"⟩ } ⟨"W1", some "Meter"⟩ rfl

/-- Transport outcomes consumed by `disconnectDevice`
(`src/ble.tsx:146`–`164`). -/
structure DisconnectTransport where
  isConnected : Except BleError Bool
  cancelConnection : Except BleError Unit

/-- The source's `disconnectDevice`: returns the new state and whether
`cancelConnection` was invoked.  `setConnectedDevice(null)` and
`setDeviceData(null)` sit inside the `try` after the transport calls, so
a thrown `isConnected`/`cancelConnection` jumps to the `catch` (which
only logs) before they run. -/
def disconnectDevice (t : DisconnectTransport) (st : AppState) :
    AppState × Bool :=
  match st.connectedDevice with
  | none => (st, false)
  | some _ =>
      match t.isConnected with
      | .error _ => (st, false)
      | .ok true =>
          match t.cancelConnection with
          | .error _ => (st, true)
          | .ok _ => ({ connectedDevice := none, deviceData := none }, true)
      | .ok false => ({ connectedDevice := none, deviceData := none }, false)

/-- Counterexample to claim C9 as stated: with a connected session and a
failing `cancelConnection`, the cleanup does NOT run — the session state
stays fully populated. -/
theorem disconnectDevice_counterexample :
    (disconnectDevice
      { isConnected := .ok true, cancelConnection := .error .CancelError }
      { connectedDevice := some ⟨"W1", some "Meter"⟩
        deviceData := some ⟨87, "open"⟩ }).1 =
      { connectedDevice := some ⟨"W1", some "Meter"⟩
        deviceData := some ⟨87, "open"⟩ } := by
  decide

/-- Claim C9 amended: when the transport's `cancelConnection` fails, the
catch handler only logs — the session state is left unchanged (still
populated); the state is cleared only when the cancel succeeds or the
device already reports not connected. -/
theorem disconnectDevice_cancel_failure (t : DisconnectTransport)
    (st : AppState) (d : Device) (e : BleError)
    (h1 : st.connectedDevice = some d)
    (h2 : t.isConnected = .ok true)
    (h3 : t.cancelConnection = .error e) :
    disconnectDevice t st = (st, true) := by
  simp [disconnectDevice, h1, h2, h3]

/-- Witness for C9's amended claim at the counterexample's input. -/
theorem disconnectDevice_cancel_failure_witness :
    disconnectDevice
      { isConnected := .ok true, cancelConnection := .error .CancelError }
      { connectedDevice := some ⟨"W1", some "Meter"⟩
        deviceData := some ⟨87, "open"⟩ } =
      ({ connectedDevice := some ⟨"W1", some "Meter"⟩
         deviceData := some ⟨87, "open"⟩ }, true) :=
  disconnectDevice_cancel_failure
    { isConnected := .ok true, cancelConnection := .error .CancelError }
    { connectedDevice := some ⟨"W1", some "Meter"⟩
      deviceData := some ⟨87, "open"⟩ }
    ⟨"W1", some "Meter"⟩ .CancelError rfl rfl rfl

/-! `connectToDevice` (`src/ble.tsx:94`–`144`).  The trace records which
transport operations the call actually performed, so "MTU negotiation /
service discovery / characteristic reads did not run on this path" is a
statement about the trace. -/

structure ConnectTrace where
  prevTeardownRan : Bool
  connectAttempted : Bool
  mtuRequested : Bool
  discoveryAttempted : Bool
  batteryReadAttempted : Bool
  valveReadAttempted : Bool
deriving DecidableEq

structure ConnectOutcome where
  state : AppState
  trace : ConnectTrace
deriving DecidableEq

/-- Trace constructor listing the flags in declaration order. -/
def mkTrace (prev conn mtu disc battery valve : Bool) : ConnectTrace :=
  { prevTeardownRan := prev, connectAttempted := conn, mtuRequested := mtu,
    discoveryAttempted := disc, batteryReadAttempted := battery,
    valveReadAttempted := valve }

/-- Transport outcomes consumed by `connectToDevice`.  The battery-level
and valve-status reads are modelled post-decode (their payloads decide no
claim); `valveValueResult` is the characteristic's raw nullable value. -/
structure ConnectTransport where
  prevDisconnect : DisconnectTransport
  isDeviceConnected : Except BleError Bool
  connectResult : Except BleError Unit
  mtuResult : Except BleError Unit
  discoverResult : Except BleError Unit
  batteryLevelResult : Except BleError Nat
  valveValueResult : Except BleError (Option String)

/-- The source's `connectToDevice`: tear down any previous session, short
circuit when the transport reports the device already connected, else
connect → set handle → request MTU 250 → discover → read battery and
valve → set device data.  Every `await` failure jumps to the single
`catch`, which only logs. -/
def connectToDevice (t : ConnectTransport) (st : AppState) (device : Device) :
    ConnectOutcome :=
  let prevTeardown := st.connectedDevice.isSome
  let st1 := if prevTeardown then (disconnectDevice t.prevDisconnect st).1 else st
  match t.isDeviceConnected with
  | .error _ =>
      { state := st1, trace := mkTrace prevTeardown false false false false false }
  | .ok true =>
      { state := { st1 with connectedDevice := some device }
        trace := mkTrace prevTeardown false false false false false }
  | .ok false =>
      match t.connectResult with
      | .error _ =>
          { state := st1, trace := mkTrace prevTeardown true false false false false }
      | .ok _ =>
          let st2 : AppState := { st1 with connectedDevice := some device }
          match t.mtuResult with
          | .error _ =>
              { state := st2, trace := mkTrace prevTeardown true true false false false }
          | .ok _ =>
              match t.discoverResult with
              | .error _ =>
                  { state := st2
                    trace := mkTrace prevTeardown true true true false false }
              | .ok _ =>
                  match t.batteryLevelResult with
                  | .error _ =>
                      { state := st2
                        trace := mkTrace prevTeardown true true true true false }
                  | .ok batteryLevel =>
                      match t.valveValueResult with
                      | .error _ =>
                          { state := st2
                            trace := mkTrace prevTeardown true true true true true }
                      | .ok v =>
                          let data : DeviceData := ⟨batteryLevel, v.getD "Unknown"⟩
                          { state := { st2 with deviceData := some data }
                            trace := mkTrace prevTeardown true true true true true }

/-- Transport used to refute claim C8: connect succeeds, the MTU request
fails, and discovery and both reads would succeed if attempted. -/
def mtuFailTransport : ConnectTransport :=
  { prevDisconnect := { isConnected := .ok false, cancelConnection := .ok () }
    isDeviceConnected := .ok false
    connectResult := .ok ()
    mtuResult := .error .MtuError
    discoverResult := .ok ()
    batteryLevelResult := .ok 87
    valveValueResult := .ok (some "open") }

/-- Counterexample to claim C8 as stated: connect succeeds and the MTU
request fails, yet service discovery is never attempted and no device
data (Ready-session payload) is ever produced — the failure is fatal to
the sequence, not logged-and-continued. -/
theorem connectToDevice_mtu_counterexample :
    (connectToDevice mtuFailTransport
      { connectedDevice := none, deviceData := none }
      ⟨"W1", some "Meter"⟩).trace.discoveryAttempted = false ∧
    (connectToDevice mtuFailTransport
      { connectedDevice := none, deviceData := none }
      ⟨"W1", some "Meter"⟩).state.deviceData = none := by
  decide

/-- Claim C8 amended: on a fresh connect attempt (no previous session)
where transport connect succeeds and the MTU request (fixed size 250)
fails, the thrown error lands in the catch handler: service discovery and
the characteristic reads are not attempted and no device data is
produced; the device handle installed before the MTU request remains. -/
theorem connectToDevice_mtu_failure_fatal (t : ConnectTransport)
    (st : AppState) (device : Device) (e : BleError)
    (h0 : st.connectedDevice = none)
    (h1 : t.isDeviceConnected = .ok false)
    (h2 : t.connectResult = .ok ())
    (h3 : t.mtuResult = .error e) :
    connectToDevice t st device =
      { state := { connectedDevice := some device, deviceData := st.deviceData }
        trace := mkTrace false true true false false false } := by
  simp [connectToDevice, h0, h1, h2, h3]

/-- Witness for C8's amended claim at the counterexample's input. -/
theorem connectToDevice_mtu_failure_fatal_witness :
    connectToDevice mtuFailTransport
      { connectedDevice := none, deviceData := none } ⟨"W1", some "Meter"⟩ =
      { state := { connectedDevice := some ⟨"W1", some "Meter"⟩
                   deviceData := none }
        trace := mkTrace false true true false false false } :=
  connectToDevice_mtu_failure_fatal mtuFailTransport
    { connectedDevice := none, deviceData := none }
    ⟨"W1", some "Meter"⟩ .MtuError rfl rfl rfl rfl

/-- Claim C10: when the transport reports the device already connected,
`connectToDevice` installs it as the active session and returns without
attempting transport connect, MTU negotiation, service discovery, or any
characteristic read. -/
theorem connectToDevice_already_connected (t : ConnectTransport)
    (st : AppState) (device : Device)
    (h : t.isDeviceConnected = .ok true) :
    (connectToDevice t st device).state.connectedDevice = some device ∧
    (connectToDevice t st device).trace.connectAttempted = false ∧
    (connectToDevice t st device).trace.mtuRequested = false ∧
    (connectToDevice t st device).trace.discoveryAttempted = false ∧
    (connectToDevice t st device).trace.batteryReadAttempted = false ∧
    (connectToDevice t st device).trace.valveReadAttempted = false := by
  simp [connectToDevice, h, mkTrace]

/-- Witness for C10: a transport reporting the device already connected
yields the short-circuit outcome. -/
theorem connectToDevice_already_connected_witness :
    (connectToDevice
      { mtuFailTransport with isDeviceConnected := .ok true }
      { connectedDevice := none, deviceData := none }
      ⟨"W1", some "Meter"⟩).state.connectedDevice =
        some ⟨"W1", some "Meter"⟩ ∧
    (connectToDevice
      { mtuFailTransport with isDeviceConnected := .ok true }
      { connectedDevice := none, deviceData := none }
      ⟨"W1", some "Meter"⟩).trace.connectAttempted = false ∧
    (connectToDevice
      { mtuFailTransport with isDeviceConnected := .ok true }
      { connectedDevice := none, deviceData := none }
      ⟨"W1", some "Meter"⟩).trace.mtuRequested = false ∧
    (connectToDevice
      { mtuFailTransport with isDeviceConnected := .ok true }
      { connectedDevice := none, deviceData := none }
      ⟨"W1", some "Meter"⟩).trace.discoveryAttempted = false ∧
    (connectToDevice
      { mtuFailTransport with isDeviceConnected := .ok true }
      { connectedDevice := none, deviceData := none }
      ⟨"W1", some "Meter"⟩).trace.batteryReadAttempted = false ∧
    (connectToDevice
      { mtuFailTransport with isDeviceConnected := .ok true }
      { connectedDevice := none, deviceData := none }
      ⟨"W1", some "Meter"⟩).trace.valveReadAttempted = false :=
  connectToDevice_already_connected
    { mtuFailTransport with isDeviceConnected := .ok true }
    { connectedDevice := none, deviceData := none }
    ⟨"W1", some "Meter"⟩ rfl

/-! Reading session (`src/App.tsx:747`–`843`).  `fetchDeviceInformation`
reads the six standard characteristics sequentially inside one single
`try`/`catch`; a read supplies raw bytes (string fields are kept as raw
bytes here — UTF-8 rendering is platform glue), the appearance field is
parsed with `Buffer.readUInt16LE(0)`.  The transport oracle maps a
(service UUID, characteristic UUID) pair to a read outcome. -/

structure DeviceInfo where
  deviceName : List Nat
  appearance : Nat
  serialNumber : List Nat
  firmwareVersion : List Nat
  hardwareRevision : List Nat
  manufacturer : List Nat
deriving DecidableEq

structure FetchTransport where
  isConnected : Bool
  reconnectResult : Except BleError Unit
  rediscoverResult : Except BleError Unit
  readCharacteristicForService : String → String → Except BleError (List Nat)

/-- The source's `fetchDeviceInformation`: reconnect-and-rediscover when
the device reports disconnected, then read device name (GAP `2A00`),
appearance (GAP `2A01`), serial number (`2A25`), firmware version
(`2A26`), hardware revision (`2A27`) and the manufacturer read (issued —
as in the source — against characteristic id `"180F"` of the Device
Information service), each `await`ed in order under the one `try`.  The
first thrown error jumps to the `catch`; only when every step succeeds
are the six decoded values produced. -/
def fetchDeviceInformation (t : FetchTransport) : Except BleError DeviceInfo :=
  let pre : Except BleError Unit :=
    if t.isConnected then .ok ()
    else
      match t.reconnectResult with
      | .error e => .error e
      | .ok _ => t.rediscoverResult
  match pre with
  | .error e => .error e
  | .ok _ =>
      match t.readCharacteristicForService "1800" "2A00" with
      | .error e => .error e
      | .ok deviceNameChar =>
          match t.readCharacteristicForService "1800" "2A01" with
          | .error e => .error e
          | .ok appearanceChar =>
              match t.readCharacteristicForService "180A" "2A25" with
              | .error e => .error e
              | .ok serialNumberChar =>
                  match t.readCharacteristicForService "180A" "2A26" with
                  | .error e => .error e
                  | .ok firmwareVersionChar =>
                      match t.readCharacteristicForService "180A" "2A27" with
                      | .error e => .error e
                      | .ok hardwareRevisionChar =>
                          match t.readCharacteristicForService "180A" "180F" with
                          | .error e => .error e
                          | .ok manufacturerChar =>
                              match readUInt16LE appearanceChar 0 with
                              | none => .error .RangeError
                              | some appearance =>
                                  .ok ⟨deviceNameChar, appearance,
                                       serialNumberChar, firmwareVersionChar,
                                       hardwareRevisionChar, manufacturerChar⟩

/-- Transport used to refute claim C6: the serial-number read alone
fails; the other five reads succeed. -/
def serialFailTransport : FetchTransport :=
  { isConnected := true
    reconnectResult := .ok ()
    rediscoverResult := .ok ()
    readCharacteristicForService := fun _ ch =>
      if ch = "2A25" then .error .CharacteristicReadError else .ok [65, 0] }

/-- Counterexample to claim C6 as stated: with exactly one of the six
reads failing (serial number) and the others succeeding, the fetch is a
total failure — no `DeviceInfo` carrying the successful fields is
produced. -/
theorem fetchDeviceInformation_counterexample :
    fetchDeviceInformation serialFailTransport =
      .error .CharacteristicReadError ∧
    serialFailTransport.readCharacteristicForService "1800" "2A00" =
      .ok [65, 0] ∧
    serialFailTransport.readCharacteristicForService "180A" "2A26" =
      .ok [65, 0] :=
  ⟨rfl, rfl, rfl⟩

/-- Claim C6 amended: the six reads share one `try`/`catch`, so the fetch
produces a `DeviceInfo` only when every read succeeds — a single failed
read turns the whole fetch into a total failure, and on success each
field is exactly the corresponding read's payload. -/
theorem fetchDeviceInformation_requires_all_reads (t : FetchTransport)
    (info : DeviceInfo) (h : fetchDeviceInformation t = .ok info) :
    t.readCharacteristicForService "1800" "2A00" = .ok info.deviceName ∧
    (∃ appearanceChar,
      t.readCharacteristicForService "1800" "2A01" = .ok appearanceChar ∧
      readUInt16LE appearanceChar 0 = some info.appearance) ∧
    t.readCharacteristicForService "180A" "2A25" = .ok info.serialNumber ∧
    t.readCharacteristicForService "180A" "2A26" = .ok info.firmwareVersion ∧
    t.readCharacteristicForService "180A" "2A27" = .ok info.hardwareRevision ∧
    t.readCharacteristicForService "180A" "180F" = .ok info.manufacturer := by
  unfold fetchDeviceInformation at h
  cases hpre : (if t.isConnected then Except.ok ()
    else
      match t.reconnectResult with
      | .error e => Except.error e
      | .ok _ => t.rediscoverResult) with
  | error e => simp [hpre] at h
  | ok u =>
    simp only [hpre] at h
    cases h0 : t.readCharacteristicForService "1800" "2A00" with
    | error e => simp [h0] at h
    | ok deviceNameChar =>
      simp only [h0] at h
      cases h1 : t.readCharacteristicForService "1800" "2A01" with
      | error e => simp [h1] at h
      | ok appearanceChar =>
        simp only [h1] at h
        cases h2 : t.readCharacteristicForService "180A" "2A25" with
        | error e => simp [h2] at h
        | ok serialNumberChar =>
          simp only [h2] at h
          cases h3 : t.readCharacteristicForService "180A" "2A26" with
          | error e => simp [h3] at h
          | ok firmwareVersionChar =>
            simp only [h3] at h
            cases h4 : t.readCharacteristicForService "180A" "2A27" with
            | error e => simp [h4] at h
            | ok hardwareRevisionChar =>
              simp only [h4] at h
              cases h5 : t.readCharacteristicForService "180A" "180F" with
              | error e => simp [h5] at h
              | ok manufacturerChar =>
                simp only [h5] at h
                cases h6 : readUInt16LE appearanceChar 0 with
                | none => simp [h6] at h
                | some appearance =>
                  simp only [h6, Except.ok.injEq] at h
                  subst h
                  exact ⟨rfl, ⟨appearanceChar, rfl, h6⟩, rfl, rfl, rfl, rfl⟩

/-- Witness for C6's amended claim: a transport where every read returns
`[65, 0]` makes the fetch succeed, and the theorem recovers the
device-name read. -/
theorem fetchDeviceInformation_requires_all_reads_witness :
    (FetchTransport.mk true (.ok ()) (.ok ())
      (fun _ _ => .ok [65, 0])).readCharacteristicForService "1800" "2A00" =
      .ok (DeviceInfo.mk [65, 0] 65 [65, 0] [65, 0] [65, 0] [65, 0]).deviceName :=
  (fetchDeviceInformation_requires_all_reads
    (FetchTransport.mk true (.ok ()) (.ok ()) (fun _ _ => .ok [65, 0]))
    (DeviceInfo.mk [65, 0] 65 [65, 0] [65, 0] [65, 0] [65, 0])
    rfl).1

end WatermeterBle
